import Mathlib

/-!
Shallow embedding of the vector-database manager of this repository
(`vector.py` and the `rebuild_vector_db` boundary of `main.py`).

The Python code interacts with a filesystem (`os.path.exists`,
`Path(...).resolve()`, reading PDF/JSON/text files) and with an external
vector-index engine (`langchain_chroma.Chroma`).  Both are modelled by an
explicit `World` state record:

* `pathExists` models `os.path.exists`;
* `resolve` models `str(Path(p).resolve())` (absolute canonical path);
* `pdfData q` models what `PdfReader(q).pages[i].extract_text()` yields:
  `some pages` for a readable PDF (one string per page, possibly empty),
  `none` when reading/parsing raises;
* `jsonData q` models the result of `json.load` on the file at `q`:
  the root is a list (each element rendered by `str`), a dict (rendered by
  `json.dumps(data, indent=2)`), some other root shape, or `none` when
  `open`/`json.load` raises;
* `textData q` models `open(q).read()` (`none` when it raises);
* `stored q` is the persisted content of the Chroma collection whose
  `persist_directory` is `q`;
* `addError` models whether the external engine's `add_documents` raises
  (`some msg` = it raises with message `msg`).
-/

/-- The root shape of a parsed JSON file, as discriminated by
`_load_json` (`vector.py` lines 64-94): a list (each element already
rendered by Python `str`), a dict (already rendered by
`json.dumps(data, indent=2)`), or any other root shape. -/
inductive JsonRoot where
  | list (items : List String)
  | dict (pretty : String)
  | other
deriving DecidableEq, Repr

/-- A langchain `Document` as built by the loaders of `vector.py`:
`page_content`, the metadata fields actually written (`source`, `type`,
and for PDFs a 1-based `page`), and the `id`. -/
structure Doc where
  page_content : String
  source : String
  docType : String
  page : Option Nat
  id : String
deriving DecidableEq, Repr

/-- The state of the outside world seen by the Python code: the
filesystem and the external Chroma vector-index engine. -/
structure World where
  pathExists : String → Bool
  resolve : String → String
  pdfData : String → Option (List String)
  jsonData : String → Option JsonRoot
  textData : String → Option String
  stored : String → List Doc
  addError : Option String

/-- The exceptions `_load_document` can raise (`vector.py` lines 25-42):
`FileNotFoundError(f"File not found: {path}")` with the resolved path,
`ValueError(f"Unsupported file type: {path}")`, and any read/parse
failure re-raised from a type-specific loader (the spec's `LoadFailure`). -/
inductive LoadError where
  | fileNotFound (path : String)
  | unsupportedFormat (path : String)
  | loadFailure (path : String)
deriving DecidableEq, Repr

/-- Python `str.endswith`, computed on the character list so that
concrete instances evaluate by kernel reduction. -/
def endsWithStr (s suffix : String) : Bool :=
  suffix.data.isSuffixOf s.data

/-- `_load_pdf` (`vector.py` lines 44-62): one `Document` per page, with
1-based `page` metadata, `type = "pdf"`, `id = f"pdf_{i}"`. -/
def pdfDocs (p : String) (pages : List String) : List Doc :=
  pages.enum.map (fun ip =>
    { page_content := ip.2, source := p, docType := "pdf",
      page := some (ip.1 + 1), id := "pdf_" ++ toString ip.1 })

/-- `_load_json` on a list root (`vector.py` lines 70-81): one `Document`
per element, `type = "json_list_item"`, `id = f"json_{i}"`. -/
def jsonListDocs (p : String) (items : List String) : List Doc :=
  items.enum.map (fun ip =>
    { page_content := ip.2, source := p, docType := "json_list_item",
      page := none, id := "json_" ++ toString ip.1 })

/-- `_load_json` on a dict root (`vector.py` lines 82-90): exactly one
`Document`, `type = "json_document"`, `id = "json_0"`. -/
def jsonDictDoc (p : String) (pretty : String) : Doc :=
  { page_content := pretty, source := p, docType := "json_document",
    page := none, id := "json_0" }

/-- `_load_text` result document (`vector.py` lines 96-111): exactly one
`Document`, `type = "text"`, `id = "text_0"`. -/
def textDoc (p : String) (content : String) : Doc :=
  { page_content := content, source := p, docType := "text",
    page := none, id := "text_0" }

/-- `_load_pdf` (`vector.py` lines 44-62): builds `pdfDocs` from the
readable PDF, re-raises a read/parse failure. -/
def load_pdf (w : World) (p : String) : Except LoadError (List Doc) :=
  match w.pdfData p with
  | none => .error (.loadFailure p)
  | some pages => .ok (pdfDocs p pages)

/-- `_load_json` (`vector.py` lines 64-94): dispatches on the JSON root
shape; a root that is neither list nor dict yields `[]`; a read/parse
failure is re-raised. -/
def load_json (w : World) (p : String) : Except LoadError (List Doc) :=
  match w.jsonData p with
  | none => .error (.loadFailure p)
  | some (.list items) => .ok (jsonListDocs p items)
  | some (.dict pretty) => .ok [jsonDictDoc p pretty]
  | some .other => .ok []

/-- `_load_text` (`vector.py` lines 96-111). -/
def load_text (w : World) (p : String) : Except LoadError (List Doc) :=
  match w.textData p with
  | none => .error (.loadFailure p)
  | some content => .ok [textDoc p content]

/-- `_load_document` (`vector.py` lines 25-42): resolves the path, raises
`FileNotFoundError` if it does not exist, then dispatches on the
extension of the resolved path, raising `ValueError` for an unsupported
extension.  The surrounding try/except logs and re-raises, so the raised
exception is unchanged. -/
def load_document (w : World) (file_path : String) : Except LoadError (List Doc) :=
  if !(w.pathExists (w.resolve file_path)) then
    .error (.fileNotFound (w.resolve file_path))
  else if endsWithStr (w.resolve file_path) ".pdf" then
    load_pdf w (w.resolve file_path)
  else if endsWithStr (w.resolve file_path) ".json" then
    load_json w (w.resolve file_path)
  else if endsWithStr (w.resolve file_path) ".txt" then
    load_text w (w.resolve file_path)
  else
    .error (.unsupportedFormat (w.resolve file_path))

/-- `os.path.join(self.db_root, topic)` (`vector.py` lines 21-23). -/
def get_collection_path (dbRoot topic : String) : String :=
  dbRoot ++ "/" ++ topic

/-- The documents a load that failed contributes: the `except` branch of
the aggregation loop (`vector.py` lines 129-131) skips the source. -/
def docsOrEmpty : Except LoadError (List Doc) → List Doc
  | .ok ds => ds
  | .error _ => []

/-- The aggregation loop of `create_or_update_collection` (`vector.py`
lines 123-131): each source is loaded; on success its documents are
appended, on any exception the source is skipped and the loop continues. -/
def gatherDocuments (w : World) : List String → List Doc
  | [] => []
  | s :: rest => docsOrEmpty (load_document w s) ++ gatherDocuments w rest

/-- Constructing `Chroma(collection_name=..., persist_directory=...,
embedding_function=...)` (`vector.py` lines 133-137).  Modelled from the
external `chromadb` engine: instantiating a persistent client creates the
persist directory on disk if it is absent; the collection's stored
vectors are unchanged. -/
def chromaInit (w : World) (persistDir : String) : World :=
  { w with pathExists := fun q => if q = persistDir then true else w.pathExists q }

/-- `vector_store.add_documents(documents=documents)` (`vector.py`
line 141): appends the documents to the persisted collection, or raises
when the external engine fails. -/
def addDocuments (w : World) (persistDir : String) (docs : List Doc) : Except String World :=
  match w.addError with
  | some msg => .error msg
  | none => .ok { w with
      stored := fun q => if q = persistDir then w.stored q ++ docs else w.stored q }

/-- `vector_store.as_retriever(search_kwargs={"k": 5})` handle
(`vector.py` lines 147 and 155-159): bound to a collection path, top-5. -/
structure Retriever where
  path : String
  k : Nat
deriving DecidableEq, Repr

/-- Outcome of one `create_or_update_collection` call: the world after
its side effects (also when it raises), the returned retriever or the
raised exception, and the documents passed to a successful
`add_documents` call (`[]` when `add_documents` was not called or
failed). -/
structure CreateOutcome where
  world : World
  result : Except String Retriever
  ingested : List Doc

/-- `create_or_update_collection` (`vector.py` lines 113-147):
`is_new` is the absence of the collection path before the call; every
source is loaded with per-source failures skipped; the Chroma store is
constructed (creating the persist directory); documents are added only
when `is_new` and at least one document was loaded; an `add_documents`
failure is re-raised.  The unused `metadata` parameter is omitted. -/
def create_or_update_collection (w : World) (dbRoot topic : String)
    (sources : List String) : CreateOutcome :=
  if !(w.pathExists (get_collection_path dbRoot topic))
      && !(gatherDocuments w sources).isEmpty then
    match addDocuments (chromaInit w (get_collection_path dbRoot topic))
        (get_collection_path dbRoot topic) (gatherDocuments w sources) with
    | .ok w2 =>
        { world := w2,
          result := .ok { path := get_collection_path dbRoot topic, k := 5 },
          ingested := gatherDocuments w sources }
    | .error msg =>
        { world := chromaInit w (get_collection_path dbRoot topic),
          result := .error msg, ingested := [] }
  else
    { world := chromaInit w (get_collection_path dbRoot topic),
      result := .ok { path := get_collection_path dbRoot topic, k := 5 },
      ingested := [] }

/-- `get_retriever` (`vector.py` lines 149-159): raises
`ValueError(f"Collection '{topic}' does not exist")` — the spec's
`CollectionNotFound` — when the collection path is absent, otherwise
returns a top-5 retriever on the existing collection. -/
def get_retriever (w : World) (dbRoot topic : String) : Except String Retriever :=
  if !(w.pathExists (get_collection_path dbRoot topic)) then
    .error ("Collection \x27" ++ topic ++ "\x27 does not exist")
  else
    .ok { path := get_collection_path dbRoot topic, k := 5 }

/-- The application-layer state touched by `rebuild_vector_db`
(`main.py` lines 14-17): the world and the module-global
`current_sources`. -/
structure AppState where
  world : World
  current_sources : List String

/-- Outcome of one `rebuild_vector_db` call: the state afterwards and the
returned status string. -/
structure RebuildOutcome where
  state : AppState
  status : String

/-- `rebuild_vector_db` (`main.py` lines 48-60): inside the try block it
first replaces `current_sources` with the requested list, then calls
`create_or_update_collection`; on success it returns
`"Vector database rebuilt successfully!"`, and any exception is caught
and converted to `"Error rebuilding vector database: " ++ cause`.  Side
effects of the failed call (the created directory, the updated
`current_sources`) persist.  `main.py` fixes `topic = current_topic` and
a default `dbRoot`; both are kept as parameters. -/
def rebuild_vector_db (app : AppState) (dbRoot topic : String)
    (sources : List String) : RebuildOutcome :=
  match (create_or_update_collection app.world dbRoot topic sources).result with
  | .ok _ =>
      { state := { world := (create_or_update_collection app.world dbRoot topic sources).world,
                   current_sources := sources },
        status := "Vector database rebuilt successfully!" }
  | .error msg =>
      { state := { world := (create_or_update_collection app.world dbRoot topic sources).world,
                   current_sources := sources },
        status := "Error rebuilding vector database: " ++ msg }

/-- Whether a load call succeeded (the try branch of the aggregation
loop was taken). -/
def loadOk : Except LoadError (List Doc) → Bool
  | .ok _ => true
  | .error _ => false

/-- Concrete world: a fresh disk where exactly the `.txt` source files
exist, path resolution is the identity, every text read yields
"great pizza", and the engine never fails. -/
def w_fresh : World where
  pathExists := fun q => endsWithStr q ".txt"
  resolve := fun s => s
  pdfData := fun _ => none
  jsonData := fun _ => none
  textData := fun _ => some "great pizza"
  stored := fun _ => []
  addError := none

/-- Concrete world: an empty disk (no path exists), identity resolution,
no readable file, engine never fails. -/
def w_missing : World where
  pathExists := fun _ => false
  resolve := fun s => s
  pdfData := fun _ => none
  jsonData := fun _ => none
  textData := fun _ => none
  stored := fun _ => []
  addError := none

/-- Concrete world: resolution prefixes the working directory `/w/`, and
the only existing file is `/w/a.txt`, readable with content "hello". -/
def w_rel : World where
  pathExists := fun q => q == "/w/a.txt"
  resolve := fun s => "/w/" ++ s
  pdfData := fun _ => none
  jsonData := fun _ => none
  textData := fun _ => some "hello"
  stored := fun _ => []
  addError := none

/-- Concrete world: resolution prefixes `/w/`, and the only existing
file is `/w/data.csv` (an unsupported extension). -/
def w_csv : World where
  pathExists := fun q => q == "/w/data.csv"
  resolve := fun s => "/w/" ++ s
  pdfData := fun _ => none
  jsonData := fun _ => none
  textData := fun _ => none
  stored := fun _ => []
  addError := none

/-- Well-formedness condition on the file at resolved path `q` under
which the claim of a non-empty load result can hold: a readable PDF with
at least one page, readable JSON whose root is a non-empty list or a
dict, or a readable text file.  (A zero-page PDF, a JSON root that is an
empty list or neither list nor dict, all yield an empty document list in
`vector.py`.)  The extension tests of the earlier dispatch branches are
included so the condition pins down which loader runs. -/
def yieldsUnit (w : World) (q : String) : Prop :=
  (endsWithStr q ".pdf" = true ∧ ∃ pages, w.pdfData q = some pages ∧ pages ≠ [])
  ∨ (endsWithStr q ".pdf" = false ∧ endsWithStr q ".json" = true
      ∧ ((∃ items, w.jsonData q = some (.list items) ∧ items ≠ [])
         ∨ (∃ s, w.jsonData q = some (.dict s))))
  ∨ (endsWithStr q ".pdf" = false ∧ endsWithStr q ".json" = false
      ∧ endsWithStr q ".txt" = true ∧ ∃ c, w.textData q = some c)

theorem addDocuments_ok_pathExists (w : World) (cp : String) (docs : List Doc)
    (w2 : World) (h : addDocuments w cp docs = Except.ok w2) :
    w2.pathExists = w.pathExists := by
  unfold addDocuments at h
  cases hE : w.addError with
  | some msg => rw [hE] at h; exact absurd h (by simp)
  | none => rw [hE] at h; simp only [Except.ok.injEq] at h; rw [← h]

theorem create_world_pathExists (w : World) (dbRoot topic : String)
    (sources : List String) :
    (create_or_update_collection w dbRoot topic sources).world.pathExists
      (get_collection_path dbRoot topic) = true := by
  unfold create_or_update_collection
  split
  · split
    · next w2 h =>
        rw [addDocuments_ok_pathExists _ _ _ _ h]
        simp [chromaInit]
    · simp [chromaInit]
  · simp [chromaInit]

theorem create_on_existing (w : World) (dbRoot topic : String) (S : List String)
    (h : w.pathExists (get_collection_path dbRoot topic) = true) :
    create_or_update_collection w dbRoot topic S =
      { world := chromaInit w (get_collection_path dbRoot topic),
        result := Except.ok { path := get_collection_path dbRoot topic, k := 5 },
        ingested := [] } := by
  unfold create_or_update_collection
  simp [h]

theorem rebuild_state_world (app : AppState) (dbRoot topic : String)
    (S : List String) :
    (rebuild_vector_db app dbRoot topic S).state.world =
      (create_or_update_collection app.world dbRoot topic S).world := by
  unfold rebuild_vector_db
  split <;> rfl

theorem rebuild_status_of_result_ok (app : AppState) (dbRoot topic : String)
    (S : List String) (r : Retriever)
    (h : (create_or_update_collection app.world dbRoot topic S).result = Except.ok r) :
    (rebuild_vector_db app dbRoot topic S).status
      = "Vector database rebuilt successfully!" := by
  unfold rebuild_vector_db
  split
  · rfl
  · next msg heq => rw [heq] at h; exact absurd h (by simp)

theorem gatherDocuments_cons (w : World) (s : String) (rest : List String) :
    gatherDocuments w (s :: rest)
      = docsOrEmpty (load_document w s) ++ gatherDocuments w rest := rfl

theorem gather_skips_failures (w : World) (sources : List String) :
    gatherDocuments w sources
      = gatherDocuments w (sources.filter (fun s => loadOk (load_document w s))) := by
  induction sources with
  | nil => rfl
  | cons s rest ih =>
      simp only [List.filter_cons]
      by_cases hok : loadOk (load_document w s) = true
      · rw [if_pos hok, gatherDocuments_cons, gatherDocuments_cons, ih]
      · have hempty : docsOrEmpty (load_document w s) = [] := by
          cases hl : load_document w s with
          | ok ds => rw [hl] at hok; exact absurd rfl hok
          | error e => rfl
        rw [if_neg hok, gatherDocuments_cons, hempty, List.nil_append, ih]

theorem create_no_docs (w : World) (dbRoot topic : String) (sources : List String)
    (hg : gatherDocuments w sources = []) :
    create_or_update_collection w dbRoot topic sources =
      { world := chromaInit w (get_collection_path dbRoot topic),
        result := Except.ok { path := get_collection_path dbRoot topic, k := 5 },
        ingested := [] } := by
  unfold create_or_update_collection
  rw [hg]
  simp

theorem create_fresh_no_addError (w : World) (dbRoot topic : String)
    (sources : List String) (hadd : w.addError = none)
    (hfresh : w.pathExists (get_collection_path dbRoot topic) = false) :
    (create_or_update_collection w dbRoot topic sources).ingested
        = gatherDocuments w sources
    ∧ (create_or_update_collection w dbRoot topic sources).result
        = Except.ok { path := get_collection_path dbRoot topic, k := 5 } := by
  by_cases hD : gatherDocuments w sources = []
  · rw [create_no_docs w dbRoot topic sources hD, hD]
    exact ⟨rfl, rfl⟩
  · have hDe : (gatherDocuments w sources).isEmpty = false := by
      cases hg : gatherDocuments w sources with
      | nil => exact absurd hg hD
      | cons a l => rfl
    unfold create_or_update_collection
    rw [hfresh, hDe]
    simp [addDocuments, chromaInit, hadd]

theorem pdfDocs_source (p : String) (pages : List String) :
    ∀ d ∈ pdfDocs p pages, d.source = p := by
  intro d hd
  simp only [pdfDocs, List.mem_map] at hd
  obtain ⟨ip, _, rfl⟩ := hd
  rfl

theorem pdfDocs_ne_nil (p : String) (pages : List String) (h : pages ≠ []) :
    pdfDocs p pages ≠ [] := by
  cases pages with
  | nil => exact absurd rfl h
  | cons a l => simp [pdfDocs]

theorem jsonListDocs_source (p : String) (items : List String) :
    ∀ d ∈ jsonListDocs p items, d.source = p := by
  intro d hd
  simp only [jsonListDocs, List.mem_map] at hd
  obtain ⟨ip, _, rfl⟩ := hd
  rfl

theorem jsonListDocs_ne_nil (p : String) (items : List String) (h : items ≠ []) :
    jsonListDocs p items ≠ [] := by
  cases items with
  | nil => exact absurd rfl h
  | cons a l => simp [jsonListDocs]

/-- C1: Existence-gated idempotence of rebuild: on a fresh root the first
`rebuild` call creates the topic's collection (its storage location
exists afterwards), and a subsequent `rebuild` with any other source
list passes no documents to `add_documents` and leaves the collection's
stored content exactly as it was after the first call. -/
theorem rebuild_existence_gated_idempotent
    (w : World) (cs : List String) (dbRoot topic : String) (S1 S2 : List String)
    (_hfresh : w.pathExists (get_collection_path dbRoot topic) = false) :
    (rebuild_vector_db ⟨w, cs⟩ dbRoot topic S1).state.world.pathExists
        (get_collection_path dbRoot topic) = true
    ∧ (create_or_update_collection
        (rebuild_vector_db ⟨w, cs⟩ dbRoot topic S1).state.world dbRoot topic S2).ingested
        = []
    ∧ (rebuild_vector_db (rebuild_vector_db ⟨w, cs⟩ dbRoot topic S1).state
          dbRoot topic S2).state.world.stored (get_collection_path dbRoot topic)
      = (rebuild_vector_db ⟨w, cs⟩ dbRoot topic S1).state.world.stored
          (get_collection_path dbRoot topic) := by
  have h1 : (rebuild_vector_db ⟨w, cs⟩ dbRoot topic S1).state.world.pathExists
      (get_collection_path dbRoot topic) = true := by
    rw [rebuild_state_world]
    exact create_world_pathExists w dbRoot topic S1
  refine ⟨h1, ?_, ?_⟩
  · rw [create_on_existing _ _ _ _ h1]
  · rw [rebuild_state_world, create_on_existing _ _ _ _ h1]
    rfl

/-- C1 witness: concrete fresh world, first rebuild from `a.txt`, second
rebuild from a different list `b.txt`. -/
theorem rebuild_existence_gated_idempotent_witness :
    w_fresh.pathExists (get_collection_path "./vector_dbs" "restaurant_reviews") = false
    ∧ ((rebuild_vector_db ⟨w_fresh, []⟩ "./vector_dbs" "restaurant_reviews"
          ["a.txt"]).state.world.pathExists
          (get_collection_path "./vector_dbs" "restaurant_reviews") = true
      ∧ (create_or_update_collection
          (rebuild_vector_db ⟨w_fresh, []⟩ "./vector_dbs" "restaurant_reviews"
            ["a.txt"]).state.world "./vector_dbs" "restaurant_reviews" ["b.txt"]).ingested
          = []
      ∧ (rebuild_vector_db
          (rebuild_vector_db ⟨w_fresh, []⟩ "./vector_dbs" "restaurant_reviews"
            ["a.txt"]).state "./vector_dbs" "restaurant_reviews"
          ["b.txt"]).state.world.stored
          (get_collection_path "./vector_dbs" "restaurant_reviews")
        = (rebuild_vector_db ⟨w_fresh, []⟩ "./vector_dbs" "restaurant_reviews"
            ["a.txt"]).state.world.stored
          (get_collection_path "./vector_dbs" "restaurant_reviews")) :=
  ⟨by decide, rebuild_existence_gated_idempotent w_fresh [] "./vector_dbs"
    "restaurant_reviews" ["a.txt"] ["b.txt"] (by decide)⟩

/-- C2 counterexample: on an empty disk, a rebuild that loads zero
documents (empty source list) still makes the collection present on
disk (the Chroma client creates the storage location), with empty
stored content — the claim said it would not become present. -/
theorem rebuild_zero_docs_creates_collection_cex :
    (rebuild_vector_db ⟨w_missing, []⟩ "./vector_dbs" "restaurant_reviews"
        []).state.world.pathExists
        (get_collection_path "./vector_dbs" "restaurant_reviews") = true
    ∧ (rebuild_vector_db ⟨w_missing, []⟩ "./vector_dbs" "restaurant_reviews"
        []).state.world.stored
        (get_collection_path "./vector_dbs" "restaurant_reviews") = [] := by
  constructor <;> rfl

/-- C2 amended: the collection is absent exactly until its storage
location exists on disk, and it becomes present on the first rebuild
call — regardless of how many documents were loaded; a rebuild that
loads zero documents still makes it present, with the stored content
unchanged (empty on a fresh root). -/
theorem collection_present_after_first_rebuild
    (app : AppState) (dbRoot topic : String) (sources : List String)
    (hdocs : gatherDocuments app.world sources = []) :
    (rebuild_vector_db app dbRoot topic sources).state.world.pathExists
        (get_collection_path dbRoot topic) = true
    ∧ (rebuild_vector_db app dbRoot topic sources).state.world.stored
        (get_collection_path dbRoot topic)
      = app.world.stored (get_collection_path dbRoot topic) := by
  constructor
  · rw [rebuild_state_world]
    exact create_world_pathExists app.world dbRoot topic sources
  · rw [rebuild_state_world, create_no_docs app.world dbRoot topic sources hdocs]
    rfl

/-- C2 amended witness: rebuild of a fresh topic whose only source does
not exist — zero documents loaded, collection present afterwards. -/
theorem collection_present_after_first_rebuild_witness :
    gatherDocuments w_missing ["nope.txt"] = []
    ∧ ((rebuild_vector_db ⟨w_missing, []⟩ "./vector_dbs" "t_empty"
          ["nope.txt"]).state.world.pathExists
          (get_collection_path "./vector_dbs" "t_empty") = true
      ∧ (rebuild_vector_db ⟨w_missing, []⟩ "./vector_dbs" "t_empty"
          ["nope.txt"]).state.world.stored
          (get_collection_path "./vector_dbs" "t_empty")
        = w_missing.stored (get_collection_path "./vector_dbs" "t_empty")) :=
  ⟨rfl, collection_present_after_first_rebuild ⟨w_missing, []⟩ "./vector_dbs"
    "t_empty" ["nope.txt"] rfl⟩

/-- C3: `rebuild_vector_db` always returns a status string — the success
message, or exactly "Error rebuilding vector database: <cause>" when a
failure was caught; in the embedding the function is total, so no
exception reaches the calling layer. -/
theorem rebuild_status_never_raises (app : AppState) (dbRoot topic : String)
    (sources : List String) :
    (rebuild_vector_db app dbRoot topic sources).status
        = "Vector database rebuilt successfully!"
    ∨ ∃ cause, (rebuild_vector_db app dbRoot topic sources).status
        = "Error rebuilding vector database: " ++ cause := by
  unfold rebuild_vector_db
  cases h : (create_or_update_collection app.world dbRoot topic sources).result with
  | ok r => left; rfl
  | error msg => right; exact ⟨msg, rfl⟩

/-- C4: per-source failure tolerance: sources whose load fails contribute
nothing and are skipped (the aggregate equals the aggregate over the
successfully loading sources alone), the rebuild still succeeds when the
engine does not fail, and on a fresh topic exactly the aggregated
documents are ingested. -/
theorem rebuild_per_source_failure_tolerant
    (w : World) (cs : List String) (dbRoot topic : String) (sources : List String)
    (hadd : w.addError = none)
    (hfresh : w.pathExists (get_collection_path dbRoot topic) = false) :
    gatherDocuments w sources
      = gatherDocuments w (sources.filter (fun s => loadOk (load_document w s)))
    ∧ (create_or_update_collection w dbRoot topic sources).ingested
        = gatherDocuments w sources
    ∧ (rebuild_vector_db ⟨w, cs⟩ dbRoot topic sources).status
        = "Vector database rebuilt successfully!" := by
  obtain ⟨hing, hres⟩ := create_fresh_no_addError w dbRoot topic sources hadd hfresh
  exact ⟨gather_skips_failures w sources, hing,
    rebuild_status_of_result_ok ⟨w, cs⟩ dbRoot topic sources _ hres⟩

/-- C4 witness: two loadable text sources around one missing `.csv`
source; the failing source is skipped and the rebuild succeeds. -/
theorem rebuild_per_source_failure_tolerant_witness :
    w_fresh.addError = none
    ∧ w_fresh.pathExists (get_collection_path "./vector_dbs" "restaurant_reviews") = false
    ∧ (gatherDocuments w_fresh ["a.txt", "nope.csv", "b.txt"]
        = gatherDocuments w_fresh
            (["a.txt", "nope.csv", "b.txt"].filter
              (fun s => loadOk (load_document w_fresh s)))
      ∧ (create_or_update_collection w_fresh "./vector_dbs" "restaurant_reviews"
            ["a.txt", "nope.csv", "b.txt"]).ingested
          = gatherDocuments w_fresh ["a.txt", "nope.csv", "b.txt"]
      ∧ (rebuild_vector_db ⟨w_fresh, []⟩ "./vector_dbs" "restaurant_reviews"
            ["a.txt", "nope.csv", "b.txt"]).status
          = "Vector database rebuilt successfully!") :=
  ⟨rfl, by decide, rebuild_per_source_failure_tolerant w_fresh [] "./vector_dbs"
    "restaurant_reviews" ["a.txt", "nope.csv", "b.txt"] rfl (by decide)⟩

/-- C5 counterexample: rebuilding fresh topic "t2" whose only source path
does not exist ingests zero documents into the newly created collection,
yet the returned status is the success message — not a failure report as
the claim states. -/
theorem rebuild_missing_only_source_reports_success_cex :
    w_missing.pathExists (get_collection_path "./vector_dbs" "t2") = false
    ∧ load_document w_missing "missing.txt"
        = Except.error (LoadError.fileNotFound "missing.txt")
    ∧ (rebuild_vector_db ⟨w_missing, []⟩ "./vector_dbs" "t2" ["missing.txt"]).status
        = "Vector database rebuilt successfully!"
    ∧ (rebuild_vector_db ⟨w_missing, []⟩ "./vector_dbs" "t2"
        ["missing.txt"]).state.world.stored
        (get_collection_path "./vector_dbs" "t2") = [] := by
  exact ⟨rfl, rfl, rfl, rfl⟩

/-- C5 amended: when rebuild is called on a fresh topic with a single
source path that does not exist, zero documents are ingested into the
newly created (empty) collection and the returned status nevertheless
reports success — per-source load failures are invisible in the status. -/
theorem rebuild_missing_only_source_status
    (app : AppState) (dbRoot topic src : String)
    (_hfresh : app.world.pathExists (get_collection_path dbRoot topic) = false)
    (hmiss : app.world.pathExists (app.world.resolve src) = false) :
    (rebuild_vector_db app dbRoot topic [src]).status
        = "Vector database rebuilt successfully!"
    ∧ (create_or_update_collection app.world dbRoot topic [src]).ingested = []
    ∧ (rebuild_vector_db app dbRoot topic [src]).state.world.pathExists
        (get_collection_path dbRoot topic) = true
    ∧ (rebuild_vector_db app dbRoot topic [src]).state.world.stored
        (get_collection_path dbRoot topic)
      = app.world.stored (get_collection_path dbRoot topic) := by
  have hload : load_document app.world src
      = Except.error (LoadError.fileNotFound (app.world.resolve src)) := by
    unfold load_document
    simp only [hmiss]
    rfl
  have hg : gatherDocuments app.world [src] = [] := by
    rw [gatherDocuments_cons, hload]
    rfl
  have hcr := create_no_docs app.world dbRoot topic [src] hg
  refine ⟨?_, ?_, ?_, ?_⟩
  · exact rebuild_status_of_result_ok app dbRoot topic [src]
      { path := get_collection_path dbRoot topic, k := 5 } (by rw [hcr])
  · rw [hcr]
  · rw [rebuild_state_world]
    exact create_world_pathExists app.world dbRoot topic [src]
  · rw [rebuild_state_world, hcr]
    rfl

/-- C5 amended witness: fresh topic "t2w", single missing source. -/
theorem rebuild_missing_only_source_status_witness :
    w_missing.pathExists (get_collection_path "./vector_dbs" "t2w") = false
    ∧ w_missing.pathExists (w_missing.resolve "absent.txt") = false
    ∧ ((rebuild_vector_db ⟨w_missing, []⟩ "./vector_dbs" "t2w" ["absent.txt"]).status
          = "Vector database rebuilt successfully!"
      ∧ (create_or_update_collection w_missing "./vector_dbs" "t2w"
            ["absent.txt"]).ingested = []
      ∧ (rebuild_vector_db ⟨w_missing, []⟩ "./vector_dbs" "t2w"
            ["absent.txt"]).state.world.pathExists
            (get_collection_path "./vector_dbs" "t2w") = true
      ∧ (rebuild_vector_db ⟨w_missing, []⟩ "./vector_dbs" "t2w"
            ["absent.txt"]).state.world.stored
            (get_collection_path "./vector_dbs" "t2w")
        = w_missing.stored (get_collection_path "./vector_dbs" "t2w")) :=
  ⟨rfl, rfl, rebuild_missing_only_source_status ⟨w_missing, []⟩ "./vector_dbs"
    "t2w" "absent.txt" rfl rfl⟩

/-- C6: Load error taxonomy: a nonexistent path fails with `FileNotFound`
carrying the resolved absolute path, and an existing file whose resolved
path has none of the extensions .pdf/.json/.txt fails with
`UnsupportedFormat` carrying that path; both results are errors, so no
documents are returned. -/
theorem load_error_taxonomy (w : World) (p : String) :
    (w.pathExists (w.resolve p) = false →
      load_document w p = Except.error (LoadError.fileNotFound (w.resolve p)))
    ∧ (w.pathExists (w.resolve p) = true →
       endsWithStr (w.resolve p) ".pdf" = false →
       endsWithStr (w.resolve p) ".json" = false →
       endsWithStr (w.resolve p) ".txt" = false →
      load_document w p = Except.error (LoadError.unsupportedFormat (w.resolve p))) := by
  constructor
  · intro h
    unfold load_document
    simp only [h]
    rfl
  · intro h h1 h2 h3
    unfold load_document
    simp only [h, h1, h2, h3]
    rfl

/-- C6 witness: a path resolving to `/w/missing.txt` that does not exist,
and an existing `/w/data.csv` with an unsupported extension. -/
theorem load_error_taxonomy_witness :
    (w_csv.pathExists (w_csv.resolve "missing.txt") = false
      ∧ load_document w_csv "missing.txt"
          = Except.error (LoadError.fileNotFound "/w/missing.txt"))
    ∧ (w_csv.pathExists (w_csv.resolve "data.csv") = true
      ∧ endsWithStr (w_csv.resolve "data.csv") ".pdf" = false
      ∧ endsWithStr (w_csv.resolve "data.csv") ".json" = false
      ∧ endsWithStr (w_csv.resolve "data.csv") ".txt" = false
      ∧ load_document w_csv "data.csv"
          = Except.error (LoadError.unsupportedFormat "/w/data.csv")) :=
  ⟨⟨by decide, (load_error_taxonomy w_csv "missing.txt").1 (by decide)⟩,
   ⟨by decide, by decide, by decide, by decide,
    (load_error_taxonomy w_csv "data.csv").2 (by decide) (by decide) (by decide)
      (by decide)⟩⟩

/-- C7 counterexample: the caller supplies the relative path "a.txt",
which resolves to "/w/a.txt"; the load succeeds on a well-formed text
file but the returned Document's `metadata.source` is the resolved path
"/w/a.txt", not the path as supplied by the caller. -/
theorem load_source_not_caller_path_cex :
    load_document w_rel "a.txt" = Except.ok [textDoc "/w/a.txt" "hello"]
    ∧ (textDoc "/w/a.txt" "hello").source = "/w/a.txt"
    ∧ (("/w/a.txt" : String) == "a.txt") = false := by
  exact ⟨rfl, rfl, by decide⟩

/-- C7 amended: for every supported extension and well-formed file that
yields at least one unit (a PDF with at least one page; JSON whose root
is a non-empty list or a dict; any readable text file), load returns a
non-empty sequence of Documents, and every returned Document's
`metadata.source` equals the RESOLVED absolute path of the input (the
loaders receive the resolved path, not the caller's spelling). -/
theorem load_wellformed_nonempty_resolved_source
    (w : World) (p : String)
    (hex : w.pathExists (w.resolve p) = true)
    (hy : yieldsUnit w (w.resolve p)) :
    ∃ docs, load_document w p = Except.ok docs ∧ docs ≠ []
      ∧ ∀ d ∈ docs, d.source = w.resolve p := by
  unfold load_document
  rcases hy with ⟨h1, pages, hp, hne⟩ | ⟨h1, h2, ⟨items, hj, hne⟩ | ⟨s, hj⟩⟩
    | ⟨h1, h2, h3, c, hc⟩
  · refine ⟨pdfDocs (w.resolve p) pages, ?_, pdfDocs_ne_nil _ _ hne,
      pdfDocs_source _ _⟩
    simp [hex, h1, load_pdf, hp]
  · refine ⟨jsonListDocs (w.resolve p) items, ?_, jsonListDocs_ne_nil _ _ hne,
      jsonListDocs_source _ _⟩
    simp [hex, h1, h2, load_json, hj]
  · refine ⟨[jsonDictDoc (w.resolve p) s], ?_, by simp, ?_⟩
    · simp [hex, h1, h2, load_json, hj]
    · intro d hd
      simp only [List.mem_singleton] at hd
      subst hd
      rfl
  · refine ⟨[textDoc (w.resolve p) c], ?_, by simp, ?_⟩
    · simp [hex, h1, h2, h3, load_text, hc]
    · intro d hd
      simp only [List.mem_singleton] at hd
      subst hd
      rfl

/-- C7 amended witness: the readable text file `/w/a.txt` (supplied as
the relative path "a.txt"). -/
theorem load_wellformed_nonempty_resolved_source_witness :
    w_rel.pathExists (w_rel.resolve "a.txt") = true
    ∧ yieldsUnit w_rel (w_rel.resolve "a.txt")
    ∧ ∃ docs, load_document w_rel "a.txt" = Except.ok docs ∧ docs ≠ []
        ∧ ∀ d ∈ docs, d.source = w_rel.resolve "a.txt" :=
  ⟨by decide,
   Or.inr (Or.inr ⟨by decide, by decide, by decide, "hello", rfl⟩),
   load_wellformed_nonempty_resolved_source w_rel "a.txt" (by decide)
     (Or.inr (Or.inr ⟨by decide, by decide, by decide, "hello", rfl⟩))⟩

/-- C8: `get_retriever` on a topic whose collection path does not exist
on disk fails with the collection-not-found error (the code's
`ValueError("Collection '<topic>' does not exist")`, the spec's
`CollectionNotFound`) instead of returning a handle. -/
theorem get_retriever_collection_not_found (w : World) (dbRoot topic : String)
    (h : w.pathExists (get_collection_path dbRoot topic) = false) :
    get_retriever w dbRoot topic
      = Except.error ("Collection \x27" ++ topic ++ "\x27 does not exist") := by
  unfold get_retriever
  simp only [h]
  rfl

/-- C8 witness: a never-built topic on an empty disk. -/
theorem get_retriever_collection_not_found_witness :
    w_missing.pathExists (get_collection_path "./vector_dbs" "never_built") = false
    ∧ get_retriever w_missing "./vector_dbs" "never_built"
        = Except.error "Collection \x27never_built\x27 does not exist" :=
  ⟨rfl, get_retriever_collection_not_found w_missing "./vector_dbs" "never_built" rfl⟩

/-- C9: every `rebuild_vector_db` call replaces the remembered
`current_sources` with the requested list — on the success path and on
the caught-failure path alike (the assignment happens before the
collection call inside the try block). -/
theorem rebuild_replaces_current_sources (app : AppState) (dbRoot topic : String)
    (sources : List String) :
    (rebuild_vector_db app dbRoot topic sources).state.current_sources = sources := by
  unfold rebuild_vector_db
  split <;> rfl

/-- C10: the missing-file check precedes extension dispatch: for every
path that does not exist on disk — whatever its extension, including an
unsupported one like .csv — load fails with `FileNotFound` on the
resolved path and never with `UnsupportedFormat`. -/
theorem load_missing_file_priority (w : World) (p : String)
    (h : w.pathExists (w.resolve p) = false) :
    load_document w p = Except.error (LoadError.fileNotFound (w.resolve p))
    ∧ ∀ q, load_document w p ≠ Except.error (LoadError.unsupportedFormat q) := by
  have h1 : load_document w p = Except.error (LoadError.fileNotFound (w.resolve p)) := by
    unfold load_document
    simp only [h]
    rfl
  refine ⟨h1, fun q hq => ?_⟩
  rw [h1] at hq
  exact absurd hq (by simp)

/-- C10 witness: the nonexistent path "data.csv" (unsupported extension)
fails with `FileNotFound`, not `UnsupportedFormat`. -/
theorem load_missing_file_priority_witness :
    w_missing.pathExists (w_missing.resolve "data.csv") = false
    ∧ load_document w_missing "data.csv"
        = Except.error (LoadError.fileNotFound "data.csv")
    ∧ load_document w_missing "data.csv"
        ≠ Except.error (LoadError.unsupportedFormat "data.csv") :=
  ⟨rfl,
   (load_missing_file_priority w_missing "data.csv" rfl).1,
   (load_missing_file_priority w_missing "data.csv" rfl).2 "data.csv"⟩
